import Mathlib

/-!
Verification of the Serial Link & Device Protocol Coordinator of the
USHS_Screens operator console (src/main.js, src/serial-handler.js).

The JavaScript source is shallowly embedded: JSON numeric fields become
`Rat`, optional JSON fields become `Option`, the `tip_states.json` document
becomes the `Store` structure, and each event handler of the source becomes
a pure Lean function over that state.  Every definition is translated from
the source file named in its doc comment.
-/

namespace USHS

/-- Tri-state label of a cycle stage, from the string labels
`'inactive' / 'active' / 'done'` used in `main.js`. -/
inductive Tri where
  | inactive
  | active
  | done
deriving DecidableEq, Repr

/-- The six ordered cycle stages, from the array
`['home', 'work_position', 'encoder_zero', 'heat', 'cool', 'cycle_complete']`
in the `cycleProgress` handler of `main.js`. -/
inductive Stage where
  | home
  | work_position
  | encoder_zero
  | heat
  | cool
  | cycle_complete
deriving DecidableEq, Repr

/-- Position of a stage in the `stages` array of `main.js`. -/
def Stage.idx : Stage → Nat
  | .home => 0
  | .work_position => 1
  | .encoder_zero => 2
  | .heat => 3
  | .cool => 4
  | .cycle_complete => 5

/-- Embedding of the `serialHandler.on('cycleProgress')` handler of
`main.js` (lines 788-821): all stages start `'inactive'`; when
`0 <= stateIndex <= 6` the loop marks stage `i` `'done'` if `i < stateIndex`,
`'active'` if `i === stateIndex && stateIndex < 6`, else `'inactive'`;
afterwards the special case `stateIndex === 6` marks every stage `'done'`. -/
def progressStates (stateIndex : Int) (s : Stage) : Tri :=
  if 0 ≤ stateIndex ∧ stateIndex ≤ 6 then
    if stateIndex = 6 then Tri.done
    else if (s.idx : Int) < stateIndex then Tri.done
    else if (s.idx : Int) = stateIndex ∧ stateIndex < 6 then Tri.active
    else Tri.inactive
  else Tri.inactive

/-- C3: for every integer stage index `i` in `[-1, 6]`, the derived six-stage
tri-state vector satisfies: if `i = -1` all stages are inactive; if `i = 6`
all stages are done; otherwise a stage at position `p` is done if `p < i`,
active if `p = i`, and inactive if `p > i`. -/
theorem c3_cycle_progress_vector (i : Int) (h1 : -1 ≤ i) (h2 : i ≤ 6) (s : Stage) :
    (i = -1 → progressStates i s = Tri.inactive) ∧
    (i = 6 → progressStates i s = Tri.done) ∧
    (-1 < i → i < 6 →
      (((s.idx : Int) < i → progressStates i s = Tri.done) ∧
       ((s.idx : Int) = i → progressStates i s = Tri.active) ∧
       (i < (s.idx : Int) → progressStates i s = Tri.inactive))) := by
  interval_cases i <;> cases s <;> decide

/-- Witness for C3 at the spec's own example `i = 3`: home is done, heat is
active, cool is inactive. -/
theorem c3_cycle_progress_vector_witness :
    progressStates 3 Stage.home = Tri.done ∧
    progressStates 3 Stage.heat = Tri.active ∧
    progressStates 3 Stage.cool = Tri.inactive :=
  ⟨(c3_cycle_progress_vector 3 (by decide) (by decide) Stage.home).2.2
      (by decide) (by decide) |>.1 (by decide),
   (c3_cycle_progress_vector 3 (by decide) (by decide) Stage.heat).2.2
      (by decide) (by decide) |>.2.1 (by decide),
   (c3_cycle_progress_vector 3 (by decide) (by decide) Stage.cool).2.2
      (by decide) (by decide) |>.2.2 (by decide)⟩

/-! ## Work position merge (`WP` handling, `main.js` lines 946-1045) -/

/-- Stored `work_position` section of `tip_states.json` at the time the
debounced `WP` merge runs (after the handler has substituted the default
object for a missing section). -/
structure WorkPosition where
  current_position : Rat
  setpoint : Rat
  speed_mode : String
  tip_distances : List (Nat × Rat)
deriving DecidableEq, Repr

/-- Inbound `WP` payload: every field the controller may omit is an
`Option` (`none` = the JSON key is absent). -/
structure WpPayload where
  current_position : Option Rat
  setpoint : Option Rat
  speed_mode : Option String
  tip_distances : Option (List (Nat × Rat))
deriving DecidableEq, Repr

/-- Lookup of a key in a JSON-object-as-association-list. -/
def tdLookup (l : List (Nat × Rat)) (k : Nat) : Option Rat :=
  (l.find? (fun kv => kv.1 == k)).map (fun kv => kv.2)

/-- Assignment `obj[k] = v` on a JSON-object-as-association-list. -/
def tdSet (l : List (Nat × Rat)) (k : Nat) (v : Rat) : List (Nat × Rat) :=
  if (l.find? (fun kv => kv.1 == k)).isSome then
    l.map (fun kv => if kv.1 == k then (k, v) else kv)
  else l ++ [(k, v)]

/-- The loop in `main.js` lines 983-987: every tip distance `1..8` missing
from the stored object is initialized to `0` before the merge. -/
def ensureTipDistances (l : List (Nat × Rat)) : List (Nat × Rat) :=
  (List.range' 1 8).foldl
    (fun acc i => if (tdLookup acc i).isSome then acc else tdSet acc i 0) l

/-- Truthiness of an optional JSON string (JavaScript `||`): `undefined` and
the empty string are falsy. -/
def strTruthy (s : Option String) : Bool :=
  match s with
  | none => false
  | some t => t != ""

/-- Embedding of `updatedWorkPosition` in the `workPositionData` handler of
`main.js` (lines 990-1008): `current_position` and `setpoint` use the
JavaScript conditional `wpData.f !== undefined ? wpData.f : stored.f`,
`speed_mode` uses `wpData.speed_mode || stored.speed_mode || 'rapid'`, and a
present `tip_distances` object overwrites entry-by-entry into a copy of the
stored (tip-distance-initialized) object. -/
def updatedWorkPosition (stored : WorkPosition) (wp : WpPayload) : WorkPosition :=
  let td0 := ensureTipDistances stored.tip_distances
  { current_position := wp.current_position.getD stored.current_position
    setpoint := wp.setpoint.getD stored.setpoint
    speed_mode :=
      if strTruthy wp.speed_mode then wp.speed_mode.getD ""
      else if strTruthy (some stored.speed_mode) then stored.speed_mode
      else "rapid"
    tip_distances :=
      match wp.tip_distances with
      | some entries => entries.foldl (fun acc kv => tdSet acc kv.1 kv.2) td0
      | none => td0 }

/-- C2: merging a `WP` payload never changes the stored setpoint when the
payload lacks a setpoint field; each scalar field present in the payload
overwrites and each absent field is retained, so the setpoint never silently
defaults to zero. -/
theorem c2_wp_setpoint_retained (stored : WorkPosition) (wp : WpPayload) :
    (wp.setpoint = none →
      (updatedWorkPosition stored wp).setpoint = stored.setpoint) ∧
    (∀ v, wp.setpoint = some v → (updatedWorkPosition stored wp).setpoint = v) ∧
    (wp.current_position = none →
      (updatedWorkPosition stored wp).current_position = stored.current_position) ∧
    (∀ v, wp.current_position = some v →
      (updatedWorkPosition stored wp).current_position = v) ∧
    (wp.speed_mode = none → stored.speed_mode ≠ "" →
      (updatedWorkPosition stored wp).speed_mode = stored.speed_mode) ∧
    (∀ m, wp.speed_mode = some m → m ≠ "" →
      (updatedWorkPosition stored wp).speed_mode = m) := by
  refine ⟨?_, ?_, ?_, ?_, ?_, ?_⟩
  · intro h; simp [updatedWorkPosition, h]
  · intro v h; simp [updatedWorkPosition, h]
  · intro h; simp [updatedWorkPosition, h]
  · intro v h; simp [updatedWorkPosition, h]
  · intro h hne; simp [updatedWorkPosition, h, strTruthy, hne]
  · intro m h hne; simp [updatedWorkPosition, h, strTruthy, hne]

/-- Stored work position of the spec's round-trip example: setpoint `12.5`. -/
def wpStored0 : WorkPosition :=
  { current_position := 0, setpoint := 25 / 2, speed_mode := "rapid"
    tip_distances := [] }

/-- Payload of the spec's round-trip example: `WP` carrying only
`current_position = 3.0`. -/
def wpPayload0 : WpPayload :=
  { current_position := some 3, setpoint := none, speed_mode := none
    tip_distances := none }

/-- Witness for C2 at the spec's round-trip example: a `WP` payload with
only `current_position` leaves the stored setpoint `12.5` intact. -/
theorem c2_wp_setpoint_retained_witness :
    (updatedWorkPosition wpStored0 wpPayload0).setpoint = 25 / 2 ∧
    (updatedWorkPosition wpStored0 wpPayload0).current_position = 3 :=
  ⟨(c2_wp_setpoint_retained wpStored0 wpPayload0).1 rfl,
   (c2_wp_setpoint_retained wpStored0 wpPayload0).2.2.2.1 3 rfl⟩

/-! ## Tip records and the `TD` telemetry merge (`main.js` lines 886-943) -/

/-- One numbered record of `tip_states.json`: operator-owned fields
(`active` and the three setpoints) plus the live telemetry fields, which are
absent (`none`) until the first `TD` frame writes them. -/
structure TipRecord where
  active : Bool
  energy_setpoint : Rat
  distance_setpoint : Rat
  heat_start_delay : Rat
  current_joules : Option Rat
  current_distance : Option Rat
  current_heat_percentage : Option Rat
deriving DecidableEq, Repr

/-- One entry of the `tips` array of a `TD` frame; fields the controller may
omit are `Option`. -/
structure TipTelemetry where
  tip_number : Nat
  joules : Option Rat
  distance : Option Rat
  heat_percentage : Option Rat
deriving DecidableEq, Repr

/-- The record the `tipData` handler creates when `tipStates[tipNum]` is
missing (`main.js` lines 906-913): note `active: true`, not the
`active = tipNumber <= 4` default of the operator-command handlers. -/
def freshTipRecord : TipRecord :=
  { active := true, energy_setpoint := 0, distance_setpoint := 0
    heat_start_delay := 0, current_joules := none, current_distance := none
    current_heat_percentage := none }

/-- Body of the `tips.forEach` loop in the `tipData` handler of `main.js`
(lines 902-919): take the existing record (or `freshTipRecord`), then assign
only `current_joules`, `current_distance` and `current_heat_percentage` from
the telemetry entry. -/
def applyTip (tips : Nat → Option TipRecord) (t : TipTelemetry) :
    Nat → Option TipRecord :=
  let rec0 := (tips t.tip_number).getD freshTipRecord
  fun k =>
    if k = t.tip_number then
      some { rec0 with
              current_joules := t.joules
              current_distance := t.distance
              current_heat_percentage := t.heat_percentage }
    else tips k

/-- The whole `tips.forEach` loop: the entries of the `TD` payload are
applied in order. -/
def applyTipData (tips : Nat → Option TipRecord) (l : List TipTelemetry) :
    Nat → Option TipRecord :=
  l.foldl applyTip tips

/-- A key matched by no telemetry entry keeps exactly its old record. -/
theorem applyTipData_not_mentioned (l : List TipTelemetry)
    (tips : Nat → Option TipRecord) (n : Nat)
    (h : ∀ t ∈ l, t.tip_number ≠ n) :
    applyTipData tips l n = tips n := by
  induction l generalizing tips with
  | nil => rfl
  | cons hd tl ih =>
    have hhd : hd.tip_number ≠ n := h hd (List.mem_cons_self hd tl)
    have htl : ∀ t ∈ tl, t.tip_number ≠ n := fun t ht => h t (List.mem_cons_of_mem hd ht)
    have hne : n ≠ hd.tip_number := fun h' => hhd h'.symm
    show applyTipData (applyTip tips hd) tl n = tips n
    rw [ih (applyTip tips hd) htl]
    simp [applyTip, hne]

/-- Operator-owned fields of `a` agree with those of `b`. -/
def sameSettings (a b : TipRecord) : Prop :=
  a.active = b.active ∧ a.energy_setpoint = b.energy_setpoint ∧
  a.distance_setpoint = b.distance_setpoint ∧ a.heat_start_delay = b.heat_start_delay

/-- One loop iteration never touches the operator-owned fields of a record
that already exists. -/
theorem applyTip_preserves_settings (tips : Nat → Option TipRecord)
    (t : TipTelemetry) (n : Nat) (r : TipRecord) (h : tips n = some r) :
    ∃ r', applyTip tips t n = some r' ∧ sameSettings r' r := by
  by_cases hn : n = t.tip_number
  · subst hn
    refine ⟨{ r with
                current_joules := t.joules,
                current_distance := t.distance,
                current_heat_percentage := t.heat_percentage },
            ?_, rfl, rfl, rfl, rfl⟩
    simp [applyTip, h]
  · exact ⟨r, by simp [applyTip, hn, h], rfl, rfl, rfl, rfl⟩

/-- The whole loop never touches the operator-owned fields of a record that
already exists. -/
theorem applyTipData_preserves_settings (l : List TipTelemetry)
    (tips : Nat → Option TipRecord) (n : Nat) (r : TipRecord)
    (h : tips n = some r) :
    ∃ r', applyTipData tips l n = some r' ∧ sameSettings r' r := by
  induction l generalizing tips r with
  | nil => exact ⟨r, h, rfl, rfl, rfl, rfl⟩
  | cons hd tl ih =>
    obtain ⟨r1, hr1, hs1⟩ := applyTip_preserves_settings tips hd n r h
    obtain ⟨r2, hr2, hs2⟩ := ih (applyTip tips hd) r1 hr1
    exact ⟨r2, hr2, hs2.1.trans hs1.1, hs2.2.1.trans hs1.2.1,
      hs2.2.2.1.trans hs1.2.2.1, hs2.2.2.2.trans hs1.2.2.2⟩

/-- When tip numbers in the payload are distinct, each entry's live values
end up in the matching record. -/
theorem applyTipData_writes_live (l : List TipTelemetry)
    (tips : Nat → Option TipRecord)
    (hnd : (l.map TipTelemetry.tip_number).Nodup) (t : TipTelemetry)
    (ht : t ∈ l) :
    ∃ r', applyTipData tips l t.tip_number = some r' ∧
      r'.current_joules = t.joules ∧ r'.current_distance = t.distance ∧
      r'.current_heat_percentage = t.heat_percentage := by
  induction l generalizing tips with
  | nil => cases ht
  | cons hd tl ih =>
    rcases List.mem_cons.mp ht with hEq | hMem
    · subst hEq
      have hrest : ∀ u ∈ tl, u.tip_number ≠ t.tip_number := by
        intro u hu hEq
        have : t.tip_number ∈ tl.map TipTelemetry.tip_number :=
          hEq ▸ List.mem_map_of_mem TipTelemetry.tip_number hu
        exact (List.nodup_cons.mp hnd).1 this
      refine ⟨{ (tips t.tip_number).getD freshTipRecord with
                  current_joules := t.joules,
                  current_distance := t.distance,
                  current_heat_percentage := t.heat_percentage },
              ?_, rfl, rfl, rfl⟩
      show applyTipData (applyTip tips t) tl t.tip_number = _
      rw [applyTipData_not_mentioned tl (applyTip tips t) t.tip_number hrest]
      simp [applyTip]
    · exact ih (applyTip tips hd) (List.nodup_cons.mp hnd).2 hMem

/-- C5: every `TD` tip entry updates only the live fields of the matching
record — `active` and the setpoints of an existing record are untouched —
every tip number absent from the payload keeps its record unchanged, and
(when the payload's tip numbers are distinct) each entry's live values are
written to its record. -/
theorem c5_td_updates_only_live_fields (tips : Nat → Option TipRecord)
    (l : List TipTelemetry) :
    (∀ n, (∀ t ∈ l, t.tip_number ≠ n) → applyTipData tips l n = tips n) ∧
    (∀ n r, tips n = some r →
      ∃ r', applyTipData tips l n = some r' ∧
        r'.active = r.active ∧ r'.energy_setpoint = r.energy_setpoint ∧
        r'.distance_setpoint = r.distance_setpoint ∧
        r'.heat_start_delay = r.heat_start_delay) ∧
    ((l.map TipTelemetry.tip_number).Nodup → ∀ t ∈ l,
      ∃ r', applyTipData tips l t.tip_number = some r' ∧
        r'.current_joules = t.joules ∧ r'.current_distance = t.distance ∧
        r'.current_heat_percentage = t.heat_percentage) :=
  ⟨fun n h => applyTipData_not_mentioned l tips n h,
   fun n r h => applyTipData_preserves_settings l tips n r h,
   fun hnd t ht => applyTipData_writes_live l tips hnd t ht⟩

/-- Concrete store for the C5 witness: all 8 records present, tip `n` with
`active = (n <= 4)` and `energy_setpoint = n`. -/
def wTips : Nat → Option TipRecord := fun n =>
  if 1 ≤ n ∧ n ≤ 8 then
    some { active := decide (n ≤ 4), energy_setpoint := n
           distance_setpoint := 0, heat_start_delay := 0
           current_joules := none, current_distance := none
           current_heat_percentage := none }
  else none

/-- The spec's example payload: only tips 1 and 3 populated. -/
def wTd : List TipTelemetry :=
  [{ tip_number := 1, joules := some 5, distance := some 2, heat_percentage := some 50 },
   { tip_number := 3, joules := some 7, distance := some 1, heat_percentage := some 80 }]

/-- Witness for C5 at the spec's example: sending `TD` with only tips 1 and
3 leaves tip 2's record bit-for-bit unchanged, keeps tip 3's setpoint, and
writes tip 1's live values. -/
theorem c5_td_updates_only_live_fields_witness :
    applyTipData wTips wTd 2 = wTips 2 ∧
    (∃ r', applyTipData wTips wTd 3 = some r' ∧
      r'.active = true ∧ r'.energy_setpoint = 3 ∧
      r'.distance_setpoint = 0 ∧ r'.heat_start_delay = 0) ∧
    (∃ r', applyTipData wTips wTd 1 = some r' ∧
      r'.current_joules = some 5 ∧ r'.current_distance = some 2 ∧
      r'.current_heat_percentage = some 50) := by
  refine ⟨(c5_td_updates_only_live_fields wTips wTd).1 2 (by decide), ?_, ?_⟩
  · obtain ⟨r', hr', ha, he, hd, hh⟩ :=
      (c5_td_updates_only_live_fields wTips wTd).2.1 3
        { active := true, energy_setpoint := 3, distance_setpoint := 0
          heat_start_delay := 0, current_joules := none, current_distance := none
          current_heat_percentage := none } (by decide)
    exact ⟨r', hr', ha, he, hd, hh⟩
  · have h1 : ({ tip_number := 1, joules := some 5, distance := some 2
                 heat_percentage := some 50 } : TipTelemetry) ∈ wTd := by decide
    obtain ⟨r', hr', hj, hdi, hp⟩ :=
      (c5_td_updates_only_live_fields wTips wTd).2.2 (by decide) _ h1
    exact ⟨r', hr', hj, hdi, hp⟩

/-! ## Debounced `WP` handling (`main.js` lines 946-1045)

The `workPositionData` handler clears any pending `workPositionUpdateTimer`
and schedules a new 100 ms timer capturing the frame's payload; only a timer
that is not cleared by a later frame runs the merge-persist-notify body.
Frames are modelled as `(arrivalTime, payload)` pairs in arrival order; a
pending timer set at time `t` fires at `t + 100`, so a later frame clears it
exactly when it arrives strictly before `t + 100`. -/

/-- Payloads whose timers fire: the frame's timer survives when the next
frame (if any) arrives at or after its 100 ms deadline. -/
def debounceCommits {α : Type} : List (Nat × α) → List α
  | [] => []
  | (t, p) :: rest =>
    match rest with
    | [] => [p]
    | (t2, _) :: _ =>
      if t2 < t + 100 then debounceCommits rest
      else p :: debounceCommits rest

/-- Each surviving timer runs the handler body once: read the current store,
merge the captured payload, write the file, notify the UI.  The returned
list holds, in order, the work position of each persistence write (the
notification of that write carries the same merged value). -/
def debounceRun (stored : WorkPosition) (frames : List (Nat × WpPayload)) :
    List WorkPosition :=
  ((debounceCommits frames).foldl
    (fun acc p => (updatedWorkPosition acc.1 p, acc.2 ++ [updatedWorkPosition acc.1 p]))
    (stored, ([] : List WorkPosition))).2

/-- When every consecutive gap is under 100 ms, only the last frame's timer
survives. -/
theorem debounceCommits_gaps {α : Type} :
    ∀ frames : List (Nat × α),
      List.Chain' (fun a b => b.1 < a.1 + 100) frames →
      ∀ l, frames.getLast? = some l → debounceCommits frames = [l.2]
  | [], _, _, hl => by cases hl
  | [(t, p)], _, l, hl => by
      simp only [List.getLast?_singleton, Option.some_inj] at hl
      subst hl
      rfl
  | (t, p) :: (t2, p2) :: rest, hc, l, hl => by
      have hgap : t2 < t + 100 := (List.chain'_cons.mp hc).1
      have htail := (List.chain'_cons.mp hc).2
      have hl' : ((t2, p2) :: rest).getLast? = some l := by
        rw [← hl]; symm; exact List.getLast?_cons_cons ..
      show (if t2 < t + 100 then debounceCommits ((t2, p2) :: rest)
            else p :: debounceCommits ((t2, p2) :: rest)) = [l.2]
      rw [if_pos hgap]
      exact debounceCommits_gaps ((t2, p2) :: rest) htail l hl'

/-- Every element of a `Chain' (· < ·)` list is at least the head. -/
theorem chain_head_le {α : Type} :
    ∀ (frames : List (Nat × α)) (t0 : Nat) (p0 : α),
      frames.head? = some (t0, p0) →
      List.Chain' (fun a b => a.1 < b.1) frames →
      ∀ x ∈ frames, t0 ≤ x.1
  | [], _, _, hh, _, _, hx => by cases hh
  | (t, p) :: rest, t0, p0, hh, hc, x, hx => by
      have ht : t = t0 := congrArg (fun o => (Option.getD o (t0, p0)).1) hh
      rcases List.mem_cons.mp hx with hEq | hMem
      · subst hEq; omega
      · match rest, hMem with
        | (t1, p1) :: rest', hMem =>
          have h1 : t < t1 := (List.chain'_cons.mp hc).1
          have := chain_head_le ((t1, p1) :: rest') t1 p1 rfl
            (List.chain'_cons.mp hc).2 x hMem
          omega

/-- Strictly increasing arrivals that all fall inside the first frame's
100 ms window have every consecutive gap under 100 ms. -/
theorem window_gaps {α : Type} :
    ∀ (frames : List (Nat × α)) (t0 : Nat) (p0 : α),
      frames.head? = some (t0, p0) →
      List.Chain' (fun a b => a.1 < b.1) frames →
      (∀ x ∈ frames, x.1 < t0 + 100) →
      List.Chain' (fun a b => b.1 < a.1 + 100) frames
  | [], _, _, _, _, _ => List.chain'_nil
  | [x], _, _, _, _, _ => List.chain'_singleton x
  | (t, p) :: (t2, p2) :: rest, t0, p0, hh, hc, hw => by
      have ht : t = t0 := congrArg (fun o => (Option.getD o (t0, p0)).1) hh
      have h2 : t2 < t0 + 100 :=
        hw (t2, p2) (List.mem_cons_of_mem _ (List.mem_cons_self _ _))
      refine List.chain'_cons.mpr ⟨by omega, ?_⟩
      refine window_gaps ((t2, p2) :: rest) t2 p2 rfl (List.chain'_cons.mp hc).2 ?_
      intro x hx
      have htt2 : t < t2 := (List.chain'_cons.mp hc).1
      have hx0 : x.1 < t0 + 100 := hw x (List.mem_cons_of_mem _ hx)
      omega

/-- C4: a burst of `WP` frames with strictly increasing arrival times, all
within 100 ms of the first, collapses to exactly one
merge-persist-notify operation, and that operation uses the payload of the
last-arrived frame. -/
theorem c4_wp_debounce_collapses (stored : WorkPosition)
    (frames : List (Nat × WpPayload)) (t0 : Nat) (p0 : WpPayload)
    (hhead : frames.head? = some (t0, p0))
    (hmono : List.Chain' (fun a b => a.1 < b.1) frames)
    (hwindow : ∀ x ∈ frames, x.1 < t0 + 100) :
    ∃ l, frames.getLast? = some l ∧
      debounceCommits frames = [l.2] ∧
      debounceRun stored frames = [updatedWorkPosition stored l.2] := by
  have hne : frames ≠ [] := by
    intro h; rw [h] at hhead; cases hhead
  obtain ⟨l, hl⟩ := Option.isSome_iff_exists.mp
    ((List.getLast?_isSome (l := frames)).mpr hne)
  refine ⟨l, hl, ?_, ?_⟩
  · exact debounceCommits_gaps frames
      (window_gaps frames t0 p0 hhead hmono hwindow) l hl
  · unfold debounceRun
    rw [debounceCommits_gaps frames
      (window_gaps frames t0 p0 hhead hmono hwindow) l hl]
    rfl

/-- Five `WP` frames of the spec's burst example, arriving 20 ms apart with
distinguishable setpoints. -/
def wBurst : List (Nat × WpPayload) :=
  [(1000, { current_position := some 1, setpoint := some 11, speed_mode := none, tip_distances := none }),
   (1020, { current_position := some 2, setpoint := some 12, speed_mode := none, tip_distances := none }),
   (1040, { current_position := some 3, setpoint := some 13, speed_mode := none, tip_distances := none }),
   (1060, { current_position := some 4, setpoint := some 14, speed_mode := none, tip_distances := none }),
   (1080, { current_position := some 5, setpoint := some 15, speed_mode := none, tip_distances := none })]

/-- Witness for C4: five frames within 100 ms produce exactly one
persistence write, carrying the last frame's payload. -/
theorem c4_wp_debounce_collapses_witness :
    (debounceRun wpStored0 wBurst).length = 1 ∧
    debounceRun wpStored0 wBurst =
      [updatedWorkPosition wpStored0
        { current_position := some 5, setpoint := some 15
          speed_mode := none, tip_distances := none }] := by
  obtain ⟨l, hl, _, hrun⟩ := c4_wp_debounce_collapses wpStored0 wBurst 1000
    { current_position := some 1, setpoint := some 11
      speed_mode := none, tip_distances := none }
    rfl (by norm_num [wBurst, List.chain'_cons]) (by decide)
  have hlval : l = (1080, { current_position := some 5, setpoint := some 15
                            speed_mode := none, tip_distances := none }) := by
    have : wBurst.getLast? = some (1080,
        { current_position := some 5, setpoint := some 15
          speed_mode := none, tip_distances := none }) := by decide
    rw [this] at hl
    exact (Option.some_inj.mp hl).symm
  rw [hlval] at hrun
  exact ⟨by rw [hrun]; rfl, hrun⟩

/-! ## Frame dispatch (`SerialHandler.handleData`, `serial-handler.js` lines 148-213) -/

/-- Result of dispatching one newline-delimited line: the event the handler
emits, or the branch that drops the frame.  The constructor
`controllerWakeup` is the event name `main.js` subscribes to
(`serialHandler.on('controllerWakeup')`); it is included so the theorem can
state which lines produce it. -/
inductive Dispatch where
  | cycleProgress (value : String)
  | tipData (value : String)
  | workPositionData (value : String)
  | controllerWakeup
  | unknownCommand (command : String)
  | droppedNoColon
deriving DecidableEq, Repr

/-- Splitting on the first colon (`data.indexOf(':')`,
`data.substring(0, colonIndex)`, `data.substring(colonIndex + 1)`); a line
with no colon yields nothing. -/
def splitFrame (data : String) : Option (String × String) :=
  let cs := data.toList
  if cs.contains ':' then
    some (String.mk (cs.takeWhile (fun c => c ≠ ':')),
          String.mk ((cs.dropWhile (fun c => c ≠ ':')).tail))
  else none

/-- Embedding of the `switch (command)` in `handleData`: the only cases are
`'CP'`, `'TD'` and `'WP'`; every other command falls to the `default`
branch, which only logs `'Unknown command'`. -/
def handleData (data : String) : Dispatch :=
  match splitFrame data with
  | none => Dispatch.droppedNoColon
  | some (command, value) =>
    if command = "CP" then Dispatch.cycleProgress value.trim
    else if command = "TD" then Dispatch.tipData value.trim
    else if command = "WP" then Dispatch.workPositionData value.trim
    else Dispatch.unknownCommand command

/-- Recognizer for the handshake event. -/
def Dispatch.isWakeup : Dispatch → Bool
  | Dispatch.controllerWakeup => true
  | _ => false

/-- C1 (code bug): the inbound line `WAKEUP:` falls into the unknown-command
branch of `handleData`, and no line whatsoever dispatches the
`controllerWakeup` event — so the `SETTINGS`-emitting wakeup responder of
`main.js` (lines 1048-1117) is unreachable and no `SETTINGS` packet is ever
sent in reply to `WAKEUP`, contradicting the repository's own protocol
documentation. -/
theorem c1_wakeup_never_dispatched :
    handleData "WAKEUP:" = Dispatch.unknownCommand "WAKEUP" ∧
    ∀ data : String, (handleData data).isWakeup = false := by
  refine ⟨by decide, ?_⟩
  intro data
  unfold handleData
  cases splitFrame data with
  | none => rfl
  | some cv =>
    obtain ⟨c, v⟩ := cv
    by_cases h1 : c = "CP" <;> by_cases h2 : c = "TD" <;> by_cases h3 : c = "WP" <;>
      simp [h1, h2, h3, Dispatch.isWakeup]

/-! ## Connection manager (`serial-handler.js`)

The mutable fields of the `SerialHandler` instance become a state record;
each method or port callback becomes a state transformer, paired with the
notifications it emits.  `reconnectInterval` is `some period` while a
`setInterval` handle is live. -/

/-- Mutable fields of `SerialHandler` (constructor, lines 6-14). -/
structure SerialState where
  isConnected : Bool
  autoReconnect : Bool
  reconnectInterval : Option Nat
  portPath : Option String
deriving DecidableEq, Repr

/-- State after `new SerialHandler()`: disconnected, `autoReconnect = true`,
no reconnect interval, no port path. -/
def initialSerialState : SerialState :=
  { isConnected := false, autoReconnect := true
    reconnectInterval := none, portPath := none }

/-- Notifications the handler emits to its subscribers. -/
inductive Notif where
  | connected (path : String)
  | disconnected
  | errorNotif
deriving DecidableEq, Repr

/-- JavaScript truthiness of `this.portPath` (`null` and `''` are falsy). -/
def pathTruthy (p : Option String) : Bool :=
  match p with
  | none => false
  | some s => s != ""

/-- The `disconnect()` method (lines 110-128): set `autoReconnect = false`,
clear any reconnect interval, close the port, mark disconnected, emit
`disconnected`. -/
def disconnect (s : SerialState) : SerialState × List Notif :=
  ({ s with autoReconnect := false, reconnectInterval := none
            isConnected := false },
   [Notif.disconnected])

/-- The `handleDisconnection()` method (lines 130-146): mark disconnected,
emit `disconnected`, and start a 5000 ms reconnect interval only when
`autoReconnect` is still true, a port path is set, and no interval is
already live. -/
def handleDisconnection (s : SerialState) : SerialState × List Notif :=
  let s1 := { s with isConnected := false }
  if s1.autoReconnect = true ∧ pathTruthy s1.portPath = true ∧
      s1.reconnectInterval = none then
    ({ s1 with reconnectInterval := some 5000 }, [Notif.disconnected])
  else (s1, [Notif.disconnected])

/-- Outcome of the `port.on('error')` callback during `connect` (lines
84-89): emit `error`, run `handleDisconnection`, and reject the caller's
promise. -/
structure ErrorOutcome where
  state : SerialState
  notifs : List Notif
  rejected : Bool
deriving DecidableEq, Repr

/-- The `port.on('error')` callback. -/
def onPortError (s : SerialState) : ErrorOutcome :=
  { state := (handleDisconnection s).1
    notifs := Notif.errorNotif :: (handleDisconnection s).2
    rejected := true }

/-- Synchronous part of `connect(path, baudRate)` (lines 52-66): if already
connected, first run `disconnect()`; then record the port path and start the
asynchronous open, whose outcome arrives later as an open, error or close
callback. -/
def connectStart (s : SerialState) (path : String) : SerialState :=
  let s1 := if s.isConnected then (disconnect s).1 else s
  { s1 with portPath := some path }

/-- The `port.on('open')` callback (lines 70-82): mark connected, emit
`connected`, clear any reconnect interval, resolve the caller. -/
def onPortOpen (s : SerialState) : SerialState × List Notif :=
  ({ s with isConnected := true, reconnectInterval := none },
   [Notif.connected (s.portPath.getD "")])

/-- The `setAutoReconnect(enabled)` method (lines 228-235). -/
def setAutoReconnect (s : SerialState) (enabled : Bool) : SerialState :=
  { s with autoReconnect := enabled
           reconnectInterval := if enabled then s.reconnectInterval else none }

/-- The body of the reconnect interval (lines 137-144): when the interval is
live and the handler is not connected, `connect(this.portPath)` is
attempted; the returned value is the path of that attempt, or `none` when no
attempt happens. -/
def tickAttempt (s : SerialState) : Option String :=
  match s.reconnectInterval with
  | some _ => if s.isConnected then none else s.portPath
  | none => none

/-- C6 (corrected): a failed initial `connect` rejects the caller and emits
an error notification, but — because `autoReconnect` is constructed as
`true` and `connect` stores the port path before opening — the error path
runs `handleDisconnection`, which does schedule a 5-second reconnect
interval even for that initial failed attempt; no interval is scheduled only
when `autoReconnect` is already false. -/
theorem c6_initial_failure_schedules_reconnect (s : SerialState) (path : String)
    (hnc : s.isConnected = false) (hpath : path ≠ "") :
    (onPortError (connectStart s path)).rejected = true ∧
    Notif.errorNotif ∈ (onPortError (connectStart s path)).notifs ∧
    (s.autoReconnect = true → s.reconnectInterval = none →
      (onPortError (connectStart s path)).state.reconnectInterval = some 5000) ∧
    (s.autoReconnect = false →
      (onPortError (connectStart s path)).state.reconnectInterval =
        s.reconnectInterval) := by
  refine ⟨rfl, List.mem_cons_self _ _, ?_, ?_⟩
  · intro har hint
    simp [onPortError, connectStart, handleDisconnection, hnc, har, hint,
      pathTruthy, hpath]
  · intro har
    simp [onPortError, connectStart, handleDisconnection, hnc, har, pathTruthy]

/-- Counterexample for C6 as stated: on the very first failed `connect` of a
freshly constructed handler a reconnect interval is scheduled, so the claim
that no reconnect is scheduled for an initial failed attempt is false. -/
theorem c6_counterexample :
    (onPortError (connectStart initialSerialState "/dev/ttyUSB0")).state.reconnectInterval
      = some 5000 ∧
    (onPortError (connectStart initialSerialState "/dev/ttyUSB0")).rejected = true := by
  exact ⟨by decide, rfl⟩

/-- Witness for the corrected C6 at the fresh-handler state. -/
theorem c6_initial_failure_schedules_reconnect_witness :
    (onPortError (connectStart initialSerialState "/dev/ttyV0")).rejected = true ∧
    Notif.errorNotif ∈ (onPortError (connectStart initialSerialState "/dev/ttyV0")).notifs :=
  ⟨(c6_initial_failure_schedules_reconnect initialSerialState "/dev/ttyV0" rfl
      (by decide)).1,
   (c6_initial_failure_schedules_reconnect initialSerialState "/dev/ttyV0" rfl
      (by decide)).2.1⟩

/-- C7: after an open connection closes unexpectedly with
`autoReconnect = true`, a 5000 ms reconnect interval is live and each tick
attempts `connect` on the stored path; the interval survives a failed retry,
is cleared by a successful open, and `disconnect()` sets
`autoReconnect = false`, cancels the interval and stops further attempts
even mid-retry. -/
theorem c7_reconnect_loop_until_disconnect (s : SerialState) (p : String)
    (hconn : s.isConnected = true) (har : s.autoReconnect = true)
    (hpath : s.portPath = some p) (hp : p ≠ "")
    (hint : s.reconnectInterval = none) :
    ((handleDisconnection s).1.reconnectInterval = some 5000 ∧
     tickAttempt (handleDisconnection s).1 = some p) ∧
    tickAttempt (onPortError (connectStart (handleDisconnection s).1 p)).state = some p ∧
    ((disconnect (handleDisconnection s).1).1.autoReconnect = false ∧
     (disconnect (handleDisconnection s).1).1.reconnectInterval = none ∧
     tickAttempt (disconnect (handleDisconnection s).1).1 = none) ∧
    (onPortOpen (handleDisconnection s).1).1.reconnectInterval = none := by
  have h1 : (handleDisconnection s).1 =
      { s with isConnected := false, reconnectInterval := some 5000 } := by
    simp [handleDisconnection, har, hpath, pathTruthy, hp, hint]
  refine ⟨⟨?_, ?_⟩, ?_, ⟨rfl, rfl, rfl⟩, rfl⟩
  · rw [h1]
  · rw [h1]; simp [tickAttempt, hpath]
  · rw [h1]
    simp [onPortError, connectStart, handleDisconnection, tickAttempt, pathTruthy]

/-- Open, auto-reconnecting handler used by the C7 witness. -/
def wOpen : SerialState :=
  { isConnected := true, autoReconnect := true
    reconnectInterval := none, portPath := some "/dev/ttyV0" }

/-- Witness for C7 at a concrete open connection. -/
theorem c7_reconnect_loop_until_disconnect_witness :
    ((handleDisconnection wOpen).1.reconnectInterval = some 5000 ∧
     tickAttempt (handleDisconnection wOpen).1 = some "/dev/ttyV0") ∧
    tickAttempt (disconnect (handleDisconnection wOpen).1).1 = none :=
  ⟨(c7_reconnect_loop_until_disconnect wOpen "/dev/ttyV0" rfl rfl rfl
      (by decide) rfl).1,
   (c7_reconnect_loop_until_disconnect wOpen "/dev/ttyV0" rfl rfl rfl
      (by decide) rfl).2.2.1.2.2⟩

/-! ## Event traces over the connection manager (for the permanence of
`disconnect`) -/

/-- One occurrence on the handler's single event loop: a public call
(`connect`, `disconnect`, `setAutoReconnect`), a port callback (`open`,
`error`, `close`), or a firing of the reconnect interval. -/
inductive SEvent where
  | connectReq (path : String)
  | openOk
  | portError
  | portClose
  | tick
  | disconnectReq
  | setAuto (enabled : Bool)
deriving DecidableEq, Repr

/-- State transition of one event, assembled from the per-method embeddings
above.  A tick that attempts a reconnect runs the synchronous part of
`connect(this.portPath)`; its open or error outcome arrives as a later
event. -/
def stepEvent (s : SerialState) : SEvent → SerialState
  | SEvent.connectReq p => connectStart s p
  | SEvent.openOk => (onPortOpen s).1
  | SEvent.portError => (onPortError s).state
  | SEvent.portClose => (handleDisconnection s).1
  | SEvent.tick =>
      match tickAttempt s with
      | some p => connectStart s p
      | none => s
  | SEvent.disconnectReq => (disconnect s).1
  | SEvent.setAuto b => setAutoReconnect s b

/-- All states visited while folding an event list, the start state
included. -/
def statesAlong (s : SerialState) : List SEvent → List SerialState
  | [] => [s]
  | e :: es => s :: statesAlong (stepEvent s e) es

/-- Once `autoReconnect` is false and no interval is live, every event other
than `setAutoReconnect(true)` preserves both. -/
theorem stepEvent_quiesced (s : SerialState) (e : SEvent)
    (har : s.autoReconnect = false) (hint : s.reconnectInterval = none)
    (he : e ≠ SEvent.setAuto true) :
    (stepEvent s e).autoReconnect = false ∧
    (stepEvent s e).reconnectInterval = none := by
  cases e with
  | connectReq p =>
    by_cases h : s.isConnected = true <;>
      simp [stepEvent, connectStart, disconnect, h, har, hint]
  | openOk => exact ⟨har, rfl⟩
  | portError =>
    simp [stepEvent, onPortError, handleDisconnection, har, hint]
  | portClose =>
    simp [stepEvent, handleDisconnection, har, hint]
  | tick =>
    simp [stepEvent, tickAttempt, hint, har]
  | disconnectReq => exact ⟨rfl, rfl⟩
  | setAuto b =>
    cases b with
    | false => exact ⟨rfl, rfl⟩
    | true => exact absurd rfl he

/-- Quiescence propagates along any trace without `setAutoReconnect(true)`. -/
theorem statesAlong_quiesced :
    ∀ (evs : List SEvent) (s : SerialState),
      s.autoReconnect = false → s.reconnectInterval = none →
      SEvent.setAuto true ∉ evs →
      ∀ st ∈ statesAlong s evs,
        st.autoReconnect = false ∧ st.reconnectInterval = none ∧
        tickAttempt st = none
  | [], s, har, hint, _, st, hst => by
      have : st = s := by simpa [statesAlong] using hst
      subst this
      exact ⟨har, hint, by simp [tickAttempt, hint]⟩
  | e :: es, s, har, hint, hev, st, hst => by
      have he : e ≠ SEvent.setAuto true := by
        intro h; exact hev (h ▸ List.mem_cons_self e es)
      obtain ⟨har', hint'⟩ := stepEvent_quiesced s e har hint he
      rcases List.mem_cons.mp hst with hEq | hMem
      · subst hEq
        exact ⟨har, hint, by simp [tickAttempt, hint]⟩
      · exact statesAlong_quiesced es (stepEvent s e) har' hint'
          (fun h => hev (List.mem_cons_of_mem e h)) st hMem

/-- C10: once `disconnect()` has run — including the tear-down `connect`
performs when the link is already open — `autoReconnect` stays false along
every subsequent trace free of `setAutoReconnect(true)`, no reconnect
interval is ever live, and no tick ever attempts a reconnect; in particular
`connect()` never re-enables auto-reconnect. -/
theorem c10_disconnect_is_permanent (s0 : SerialState) (p : String)
    (evs : List SEvent) (hev : SEvent.setAuto true ∉ evs) :
    (∀ st ∈ statesAlong (disconnect s0).1 evs,
      st.autoReconnect = false ∧ st.reconnectInterval = none ∧
      tickAttempt st = none) ∧
    (s0.isConnected = true →
      ∀ st ∈ statesAlong (connectStart s0 p) evs,
        st.autoReconnect = false ∧ st.reconnectInterval = none ∧
        tickAttempt st = none) := by
  constructor
  · exact statesAlong_quiesced evs (disconnect s0).1 rfl rfl hev
  · intro hc
    have h1 : connectStart s0 p = { (disconnect s0).1 with portPath := some p } := by
      simp [connectStart, hc]
    exact h1 ▸ statesAlong_quiesced evs _ rfl rfl hev

/-- Trace used by the C10 witness: after `disconnect()`, the handler sees a
connect request, a failed open, ticks and a close. -/
def wTrace : List SEvent :=
  [SEvent.connectReq "/dev/ttyV0", SEvent.portError, SEvent.tick,
   SEvent.portClose, SEvent.tick]

/-- Final state of the C10 witness trace. -/
def wTraceFinal : SerialState :=
  List.foldl stepEvent (disconnect wOpen).1 wTrace

/-- Witness for C10: along the concrete post-`disconnect()` trace the
handler never re-enables auto-reconnect and never attempts a reconnect. -/
theorem c10_disconnect_is_permanent_witness :
    wTraceFinal.autoReconnect = false ∧
    wTraceFinal.reconnectInterval = none ∧
    tickAttempt wTraceFinal = none :=
  (c10_disconnect_is_permanent wOpen "/dev/ttyV0" wTrace (by decide)).1
    wTraceFinal (by decide)

/-! ## Store loading and default provisioning (`main.js`) -/

/-- The `configuration` section of `tip_states.json`. -/
structure Config where
  weld_time : Rat
  pulse_energy : Rat
  cool_time : Rat
  presence_height : Rat
  boss_tolerance_minus : Rat
  boss_tolerance_plus : Rat
deriving DecidableEq, Repr

/-- The parts of `tip_states.json` these handlers touch: the numeric-keyed
tip records and the `configuration` section (`none` = section absent). -/
structure Store where
  tips : Nat → Option TipRecord
  configuration : Option Config

/-- Outcome of `fs.readFileSync` + `JSON.parse` at the start of a handler:
either the parsed document or a thrown error (file missing or corrupt). -/
inductive LoadResult where
  | ok (s : Store)
  | failed

/-- The default tip record of the operator-command catch blocks
(`active: i <= 4`, zero setpoints). -/
def defaultTipRecord (i : Nat) : TipRecord :=
  { active := decide (i ≤ 4), energy_setpoint := 0, distance_setpoint := 0
    heat_start_delay := 0, current_joules := none, current_distance := none
    current_heat_percentage := none }

/-- The loop `for (let i = 1; i <= 8; i++) tipStates[i] = ...` of the
operator-command catch blocks. -/
def defaultTips : Nat → Option TipRecord := fun i =>
  if 1 ≤ i ∧ i ≤ 8 then some (defaultTipRecord i) else none

/-- The default `configuration` object of the `update_configuration` catch
block (`pulse_energy: 10`, all other fields `0`). -/
def defaultConfiguration : Config :=
  { weld_time := 0, pulse_energy := 10, cool_time := 0, presence_height := 0
    boss_tolerance_minus := 0, boss_tolerance_plus := 0 }

/-- Load step of `ipcMain.handle('update_tip_state')` (`main.js` lines
467-485): on read failure initialize the eight default tip records — and
nothing else; no default `configuration` is created. -/
def loadForUpdateTipState : LoadResult → Store
  | LoadResult.ok s => s
  | LoadResult.failed => { tips := defaultTips, configuration := none }

/-- Load step of `ipcMain.handle('update_configuration')` (`main.js` lines
579-615): on read failure initialize the eight default tip records and the
default `configuration`. -/
def loadForUpdateConfiguration : LoadResult → Store
  | LoadResult.ok s => s
  | LoadResult.failed =>
      { tips := defaultTips, configuration := some defaultConfiguration }

/-- Load step of the `tipData` telemetry handler (`main.js` lines 886-899):
its catch block only logs `'Creating new tip states file'` and proceeds with
the empty object `tipStates = {}` — no default records are provisioned. -/
def loadForTipData : LoadResult → Store
  | LoadResult.ok s => s
  | LoadResult.failed => { tips := fun _ => none, configuration := none }

/-- Load step of the `homeScreenData` telemetry handler (`main.js` lines
851-870): identical catch behavior — proceed with the empty object. -/
def loadForHomeScreenData : LoadResult → Store
  | LoadResult.ok s => s
  | LoadResult.failed => { tips := fun _ => none, configuration := none }

/-- Counterexample for C8 as stated: when the store file is unreadable at
the start of the `tipData` telemetry merge, no default records exist (tip 2
has none), a telemetry entry for tip 5 creates a record with
`active = true` instead of the claimed default `active = (5 <= 4) = false`,
and even the operator-originated `update_tip_state` provisions no default
`Configuration`. -/
theorem c8_counterexample :
    (loadForTipData LoadResult.failed).tips 2 = none ∧
    defaultTips 2 = some (defaultTipRecord 2) ∧
    applyTipData (loadForTipData LoadResult.failed).tips
        [{ tip_number := 5, joules := some 1, distance := none, heat_percentage := none }] 5
      = some { freshTipRecord with current_joules := some 1 } ∧
    (defaultTipRecord 5).active = false ∧
    (loadForUpdateTipState LoadResult.failed).configuration = none :=
  ⟨rfl, by decide, by decide, by decide, rfl⟩

/-- C8 (corrected): the eight-default-records provisioning runs on read
failure only in the operator-command handlers — `update_tip_state`
provisions the default tips but no default `Configuration`, and only
`update_configuration` provisions both — while the telemetry merges
(`tipData`, `homeScreenData`) proceed from an empty document, `tipData`
creating any missing record with `active = true`. -/
theorem c8_default_provisioning_per_handler :
    (∀ i, (loadForUpdateTipState LoadResult.failed).tips i = defaultTips i) ∧
    (loadForUpdateTipState LoadResult.failed).configuration = none ∧
    (∀ i, (loadForUpdateConfiguration LoadResult.failed).tips i = defaultTips i) ∧
    (loadForUpdateConfiguration LoadResult.failed).configuration =
      some defaultConfiguration ∧
    (∀ i, (loadForTipData LoadResult.failed).tips i = none) ∧
    (∀ i, (loadForHomeScreenData LoadResult.failed).tips i = none) ∧
    (∀ t, applyTipData (loadForTipData LoadResult.failed).tips [t] t.tip_number
      = some { freshTipRecord with
                current_joules := t.joules
                current_distance := t.distance
                current_heat_percentage := t.heat_percentage }) ∧
    (∀ s, loadForTipData (LoadResult.ok s) = s) :=
  ⟨fun _ => rfl, rfl, fun _ => rfl, rfl, fun _ => rfl, fun _ => rfl,
   fun t => by simp [applyTipData, applyTip, loadForTipData],
   fun _ => rfl⟩

/-! ## Settings synchronizer (`sendSettingsToController`, `main.js` lines
1121-1217) and `SerialHandler.send` (lines 215-226) -/

/-- One entry of the outbound `TIPS` packet's `tips` array. -/
structure TipSettingsEntry where
  tip_number : Nat
  active : Bool
  energy_setpoint : Rat
  distance_setpoint : Rat
  heat_start_delay : Rat
deriving DecidableEq, Repr

/-- The `case 'tips'` builder (`main.js` lines 1152-1169): for `i` from 1 to
8, an entry is pushed only when `allSettings[i.toString()]` exists. -/
def buildTipsUpdate (tips : Nat → Option TipRecord) : List TipSettingsEntry :=
  (List.range' 1 8).filterMap fun i =>
    (tips i).map fun t =>
      { tip_number := i, active := t.active
        energy_setpoint := t.energy_setpoint
        distance_setpoint := t.distance_setpoint
        heat_start_delay := t.heat_start_delay }

/-- The whole tips-changed synchronizer: `sendSettingsToController('tips')`
returns immediately when the handler is not connected, returns after logging
when the store file cannot be read, and otherwise builds and sends the
`TIPS` packet; `some` is the packet handed to `serialHandler.send`, `none`
means nothing is sent (and no error is raised). -/
def sendSettingsTips (isConnected : Bool) (ld : LoadResult) :
    Option (List TipSettingsEntry) :=
  if isConnected then
    match ld with
    | LoadResult.ok s => some (buildTipsUpdate s.tips)
    | LoadResult.failed => none
  else none

/-- Store with a record only for tip 1, used as the C9 counterexample. -/
def oneTipStore : Nat → Option TipRecord := fun i =>
  if i = 1 then some (defaultTipRecord 1) else none

/-- Counterexample for C9 as stated: the `TIPS` builder pushes entries only
for tip numbers present in the store, so on a store holding only tip 1 the
packet's array has one entry, not all 8. -/
theorem c9_counterexample :
    (buildTipsUpdate oneTipStore).length = 1 ∧
    (buildTipsUpdate oneTipStore).length ≠ 8 :=
  ⟨by decide, by decide⟩

/-- C9 (corrected): the tips-changed synchronizer builds a `TIPS` packet
with one entry per tip number 1..8 present in the Store, read at call time —
all 8 exactly when all 8 records exist — each entry carrying that record's
`active` and setpoints; and invoking it while the link is not open sends
nothing and raises no error. -/
theorem c9_tips_packet_from_store (tips : Nat → Option TipRecord)
    (h : ∀ i, 1 ≤ i → i ≤ 8 → (tips i).isSome = true) (ld : LoadResult) :
    (buildTipsUpdate tips).length = 8 ∧
    (∀ i t, tips i = some t → 1 ≤ i → i ≤ 8 →
      ({ tip_number := i, active := t.active
         energy_setpoint := t.energy_setpoint
         distance_setpoint := t.distance_setpoint
         heat_start_delay := t.heat_start_delay } : TipSettingsEntry)
        ∈ buildTipsUpdate tips) ∧
    sendSettingsTips false ld = none := by
  obtain ⟨t1, e1⟩ := Option.isSome_iff_exists.mp (h 1 (by norm_num) (by norm_num))
  obtain ⟨t2, e2⟩ := Option.isSome_iff_exists.mp (h 2 (by norm_num) (by norm_num))
  obtain ⟨t3, e3⟩ := Option.isSome_iff_exists.mp (h 3 (by norm_num) (by norm_num))
  obtain ⟨t4, e4⟩ := Option.isSome_iff_exists.mp (h 4 (by norm_num) (by norm_num))
  obtain ⟨t5, e5⟩ := Option.isSome_iff_exists.mp (h 5 (by norm_num) (by norm_num))
  obtain ⟨t6, e6⟩ := Option.isSome_iff_exists.mp (h 6 (by norm_num) (by norm_num))
  obtain ⟨t7, e7⟩ := Option.isSome_iff_exists.mp (h 7 (by norm_num) (by norm_num))
  obtain ⟨t8, e8⟩ := Option.isSome_iff_exists.mp (h 8 (by norm_num) (by norm_num))
  have hr : List.range' 1 8 = [1, 2, 3, 4, 5, 6, 7, 8] := rfl
  have hb : buildTipsUpdate tips =
      [{ tip_number := 1, active := t1.active, energy_setpoint := t1.energy_setpoint,
         distance_setpoint := t1.distance_setpoint, heat_start_delay := t1.heat_start_delay },
       { tip_number := 2, active := t2.active, energy_setpoint := t2.energy_setpoint,
         distance_setpoint := t2.distance_setpoint, heat_start_delay := t2.heat_start_delay },
       { tip_number := 3, active := t3.active, energy_setpoint := t3.energy_setpoint,
         distance_setpoint := t3.distance_setpoint, heat_start_delay := t3.heat_start_delay },
       { tip_number := 4, active := t4.active, energy_setpoint := t4.energy_setpoint,
         distance_setpoint := t4.distance_setpoint, heat_start_delay := t4.heat_start_delay },
       { tip_number := 5, active := t5.active, energy_setpoint := t5.energy_setpoint,
         distance_setpoint := t5.distance_setpoint, heat_start_delay := t5.heat_start_delay },
       { tip_number := 6, active := t6.active, energy_setpoint := t6.energy_setpoint,
         distance_setpoint := t6.distance_setpoint, heat_start_delay := t6.heat_start_delay },
       { tip_number := 7, active := t7.active, energy_setpoint := t7.energy_setpoint,
         distance_setpoint := t7.distance_setpoint, heat_start_delay := t7.heat_start_delay },
       { tip_number := 8, active := t8.active, energy_setpoint := t8.energy_setpoint,
         distance_setpoint := t8.distance_setpoint, heat_start_delay := t8.heat_start_delay }] := by
    simp [buildTipsUpdate, hr, e1, e2, e3, e4, e5, e6, e7, e8]
  refine ⟨by rw [hb]; rfl, ?_, rfl⟩
  intro i t ht h1 h8
  interval_cases i
  · rw [e1] at ht; cases ht; rw [hb]; simp
  · rw [e2] at ht; cases ht; rw [hb]; simp
  · rw [e3] at ht; cases ht; rw [hb]; simp
  · rw [e4] at ht; cases ht; rw [hb]; simp
  · rw [e5] at ht; cases ht; rw [hb]; simp
  · rw [e6] at ht; cases ht; rw [hb]; simp
  · rw [e7] at ht; cases ht; rw [hb]; simp
  · rw [e8] at ht; cases ht; rw [hb]; simp

/-- Store of the spec's synchronizer example: all 8 records present and tip
2 has `active = true`, `energy_setpoint = 3.7`. -/
def wStore9 : Nat → Option TipRecord := fun i =>
  if 1 ≤ i ∧ i ≤ 8 then
    some { active := i = 2, energy_setpoint := if i = 2 then 37 / 10 else 0
           distance_setpoint := 0, heat_start_delay := 0
           current_joules := none, current_distance := none
           current_heat_percentage := none }
  else none

/-- Witness for the corrected C9 at the spec's example: the packet has 8
entries, the tip 2 entry carries `active = true` and
`energy_setpoint = 3.7`, and sending while disconnected is a no-op. -/
theorem c9_tips_packet_from_store_witness :
    (buildTipsUpdate wStore9).length = 8 ∧
    ({ tip_number := 2, active := true, energy_setpoint := 37 / 10
       distance_setpoint := 0, heat_start_delay := 0 } : TipSettingsEntry)
      ∈ buildTipsUpdate wStore9 ∧
    sendSettingsTips false (LoadResult.ok { tips := wStore9, configuration := none })
      = none := by
  obtain ⟨hlen, hmem, hnone⟩ := c9_tips_packet_from_store wStore9
    (by intro i h1 h8; interval_cases i <;> rfl)
    (LoadResult.ok { tips := wStore9, configuration := none })
  refine ⟨hlen, ?_, hnone⟩
  have h2 : wStore9 2 = some
      { active := true, energy_setpoint := 37 / 10
        distance_setpoint := 0, heat_start_delay := 0
        current_joules := none, current_distance := none
        current_heat_percentage := none } := by
    show wStore9 2 = _
    unfold wStore9
    norm_num
  exact hmem 2 _ h2 (by norm_num) (by norm_num)

end USHS
